import Mathlib

/-!
Shallow embedding of `src/core.py` (docker-db-cli): a CLI that launches
preset database containers via a container runtime.

Model: each spawned runtime command is answered by an `Oracle` (a function
from the full command line to the completed process result).  Every embedded
function returns the `Eff` it produced — the list of runtime commands issued
(in order), the lines printed to stdout and to stderr — together with an
`Outcome`: either normal completion (`done`) or process termination via
`sys.exit` (`exited`).  The filesystem used by runtime discovery is a
predicate `fs : String → Bool` (`Path(p).exists()`).
-/

/-- Result of `subprocess.run(..., capture_output=True, text=True)`. -/
structure CompletedProcess where
  returncode : Int
  stdout : String
  stderr : String
deriving Repr, DecidableEq

/-- The environment's answer to a spawned command (full argv, binary included). -/
def Oracle : Type := List String → CompletedProcess

/-- Effects of a run: runtime commands issued, stdout prints, stderr prints. -/
structure Eff where
  trace : List (List String)
  outs : List String
  errs : List String
deriving Repr, DecidableEq

def Eff.empty : Eff := ⟨[], [], []⟩

def Eff.app (a b : Eff) : Eff := ⟨a.trace ++ b.trace, a.outs ++ b.outs, a.errs ++ b.errs⟩

instance : Append Eff := ⟨Eff.app⟩

/-- Outcome of a piece of the program: normal value, or `sys.exit code`. -/
inductive Outcome (α : Type) where
  | exited (code : Nat)
  | done (a : α)
deriving Repr, DecidableEq

/-- Sequencing: an earlier `sys.exit` short-circuits everything after it. -/
def mbind {α β : Type} (x : Eff × Outcome α) (f : α → Eff × Outcome β) :
    Eff × Outcome β :=
  match x with
  | (e, .exited n) => (e, .exited n)
  | (e, .done a) => (e ++ (f a).1, (f a).2)

/-- `print(s)` (to stdout). -/
def printOut (s : String) : Eff × Outcome Unit := (⟨[], [s], []⟩, .done ())

/-- `print(s, file=sys.stderr)`. -/
def printErr (s : String) : Eff × Outcome Unit := (⟨[], [], [s]⟩, .done ())

/-- `sys.exit(n)`. -/
def exitWith {α : Type} (n : Nat) : Eff × Outcome α := (Eff.empty, .exited n)

/-- `DOCKER_PATHS` — the fixed candidate install locations (core.py lines 32–36). -/
def DOCKER_PATHS : List String :=
  ["/usr/bin/docker", "/usr/local/bin/docker",
   "C:\\Program Files\\Docker\\Docker\\resources\\bin\\docker.exe"]

def dockerNotFoundMsg : String :=
  "❌ Docker not found. Please install Docker and ensure it\x27s in your PATH."

/-- `find_docker` (core.py lines 39–45): probe `DOCKER_PATHS` in order, return the
first existing path; otherwise print to stderr and `sys.exit(1)`. -/
def find_docker (fs : String → Bool) : Eff × Outcome String :=
  match DOCKER_PATHS.find? (fun p => fs p) with
  | some path => (Eff.empty, .done path)
  | none => (⟨[], [], [dockerNotFoundMsg]⟩, .exited 1)

/-- `run_docker_command` (core.py lines 48–56): locate the binary, then spawn
`[docker_bin] + args` and return its completed result.  The spawn itself is
answered by the oracle (a spawn exception is environment nondeterminism the
oracle does not model). -/
def run_docker_command (fs : String → Bool) (O : Oracle) (args : List String) :
    Eff × Outcome CompletedProcess :=
  mbind (find_docker fs) fun docker_bin =>
    (⟨[docker_bin :: args], [], []⟩, .done (O (docker_bin :: args)))

/-- Python `str.splitlines`: split on the line-break characters, a `"\r\n"`
pair counting as one break, with no trailing empty line. -/
def isLineBreak (c : Char) : Bool :=
  c = '\n' || c = '\r' || c = '\x0b' || c = '\x0c' ||
  c = '\x1c' || c = '\x1d' || c = '\x1e' || c = '\x85' ||
  c = '\u2028' || c = '\u2029'

def pySplitlinesAux : List Char → List Char → List String
  | [], cur => if cur = [] then [] else [⟨cur.reverse⟩]
  | c :: rest, cur =>
    if c = '\r' then
      match rest with
      | c2 :: rest2 =>
        if c2 = '\n' then String.mk cur.reverse :: pySplitlinesAux rest2 []
        else String.mk cur.reverse :: pySplitlinesAux (c2 :: rest2) []
      | [] => [String.mk cur.reverse]
    else if isLineBreak c then String.mk cur.reverse :: pySplitlinesAux rest []
    else pySplitlinesAux rest (c :: cur)

def pySplitlines (s : String) : List String := pySplitlinesAux s.data []

/-- The argv of the listing command `docker ps -a --format {{.Names}}`. -/
def psArgs : List String := ["ps", "-a", "--format", "\x7b\x7b.Names\x7d\x7d"]

/-- `container_exists` (core.py lines 59–62): list all containers (including
stopped ones) and test literal membership of `name` among the output lines. -/
def container_exists (fs : String → Bool) (O : Oracle) (name : String) :
    Eff × Outcome Bool :=
  mbind (run_docker_command fs O psArgs) fun result =>
    (Eff.empty, .done ((pySplitlines result.stdout).contains name))

def msgStopping (name : String) : String :=
  "Stopping and removing container \x27" ++ name ++ "\x27..."

def msgRemoved (name : String) : String :=
  "Container \x27" ++ name ++ "\x27 removed successfully."

def msgNotRemoved (name : String) : String :=
  "Container \x27" ++ name ++ "\x27 may not exist or could not be removed."

/-- `stop_and_remove_container` (core.py lines 65–73): print, issue `stop`,
issue `rm`, and report on the `rm` return code; never exits. -/
def stop_and_remove_container (fs : String → Bool) (O : Oracle) (name : String) :
    Eff × Outcome Unit :=
  mbind (printOut (msgStopping name)) fun _ =>
  mbind (run_docker_command fs O (["stop", name])) fun _ =>
  mbind (run_docker_command fs O (["rm", name])) fun result =>
    if result.returncode = 0 then printOut (msgRemoved name)
    else printOut (msgNotRemoved name)

/-- The `docker run` argv built by `run_container` (core.py lines 91–97):
name, `-e` flags, optional `-p` flag, detached mode, image.  Python truthiness:
an empty env list adds nothing (as does the empty flat map) and an empty
port-mapping string adds no `-p` flag. -/
def buildRunCmd (name image : String) (env_vars : Option (List String))
    (port_mapping : Option String) : List String :=
  ["run", "--name", name]
    ++ (match env_vars with
        | some vs => vs.flatMap (fun v => ["-e", v])
        | none => [])
    ++ (match port_mapping with
        | some p => if p = "" then [] else ["-p", p]
        | none => [])
    ++ ["-d", image]

def msgReplacing (name : String) : String :=
  "Container \x27" ++ name ++ "\x27 already exists. Replacing it..."

def msgStarting (name image : String) : String :=
  "Starting container \x27" ++ name ++ "\x27 from image \x27" ++ image ++ "\x27..."

def msgRunning (name : String) : String :=
  "Container \x27" ++ name ++ "\x27 is now running."

def msgFailed (stderrText : String) : String :=
  "Failed to start container:\n" ++ stderrText

/-- `run_container` (core.py lines 76–105): replace-on-conflict launch.
If the name exists the container is stopped and removed first; then the run
command is issued; a nonzero return code prints the runtime stderr and exits 1. -/
def run_container (fs : String → Bool) (O : Oracle) (name image : String)
    (env_vars : Option (List String)) (port_mapping : Option String) :
    Eff × Outcome Unit :=
  mbind (container_exists fs O name) fun ex =>
  mbind (if ex then
           mbind (printOut (msgReplacing name)) fun _ =>
             stop_and_remove_container fs O name
         else (Eff.empty, .done ())) fun _ =>
  mbind (printOut (msgStarting name image)) fun _ =>
  mbind (run_docker_command fs O (buildRunCmd name image env_vars port_mapping))
    fun result =>
      if result.returncode = 0 then printOut (msgRunning name)
      else mbind (printErr (msgFailed result.stderr)) fun _ => exitWith 1

/-! ### `validate_port` (core.py lines 108–116)

`int(value)` is modelled for ASCII inputs exactly as CPython parses decimal
integer literals from strings: optional surrounding whitespace, an optional
single sign, then digits where a single underscore may stand between two
digits. -/

def isPySpace (c : Char) : Bool :=
  c = ' ' || c = '\t' || c = '\n' || c = '\r' || c = '\x0b' || c = '\x0c'

/-- Strip leading and trailing whitespace, as `int()` does before parsing. -/
def pyStrip (cs : List Char) : List Char :=
  ((cs.dropWhile isPySpace).reverse.dropWhile isPySpace).reverse

def charVal (c : Char) : Nat := c.toNat - 48

/-- Digits after the first one: a `_` must be followed by a digit. -/
def parseDigits : List Char → Nat → Option Nat
  | [], acc => some acc
  | c :: rest, acc =>
    if c.isDigit then parseDigits rest (acc * 10 + charVal c)
    else if c = '_' then
      match rest with
      | [] => none
      | c2 :: rest2 =>
        if c2.isDigit then parseDigits rest2 (acc * 10 + charVal c2) else none
    else none

/-- The unsigned digit part: at least one digit required. -/
def natPart : List Char → Option Nat
  | [] => none
  | c :: rest => if c.isDigit then parseDigits rest (charVal c) else none

def pyIntCore : List Char → Option Int
  | [] => none
  | c :: rest =>
    if c = '+' then (natPart rest).map (fun n => (n : Int))
    else if c = '-' then (natPart rest).map (fun n => -(n : Int))
    else (natPart (c :: rest)).map (fun n => (n : Int))

/-- CPython `int(s)` on an ASCII string, `none` when it raises `ValueError`. -/
def pyInt (s : String) : Option Int := pyIntCore (pyStrip s.data)

inductive PortResult where
  | ok (p : Int)
  | error (msg : String)
deriving Repr, DecidableEq

def invalidPortMsg (value : String) : String :=
  "Invalid port: " ++ value ++ ". Must be 1-65535."

/-- `validate_port` (core.py lines 108–116): parse, then range-check 1–65535;
a parse failure or a range failure both raise `ArgumentTypeError` (a usage
error) with the same message. -/
def validate_port (value : String) : PortResult :=
  match pyInt value with
  | some port =>
    if 1 ≤ port ∧ port ≤ 65535 then .ok port else .error (invalidPortMsg value)
  | none => .error (invalidPortMsg value)

/-! ### `main` (core.py lines 119–228)

A parsed command line.  Ports have already passed `validate_port`, hence they
are natural numbers (argparse applies the converter to every supplied
`--port`); default images are filled in by argparse and appear here as the
image field. -/

inductive Command where
  | stop (name : String)
  | postgres (name user password db : String) (port : Nat) (image : String)
  | mysql (name user password db : String) (port : Nat) (image : String)
  | redis (name : String) (port : Nat) (image : String)
  | mongo (name user password db : String) (port : Nat) (image : String)
  | custom (name image : String) (port : Option Nat) (env : Option (List String))
deriving Repr, DecidableEq

/-- The dispatch of `main` (core.py lines 172–228) after argument parsing.
For `custom`, `f"{args.port}:{args.port}" if args.port else None` tests Python
truthiness of the int, i.e. nonzero. -/
def execMain (fs : String → Bool) (O : Oracle) : Command → Eff × Outcome Unit
  | .stop name => stop_and_remove_container fs O name
  | .postgres name user password db port image =>
    run_container fs O name image
      (some ["POSTGRES_USER=" ++ user, "POSTGRES_PASSWORD=" ++ password,
             "POSTGRES_DB=" ++ db])
      (some (toString port ++ ":5432"))
  | .mysql name user password db port image =>
    run_container fs O name image
      (some ["MYSQL_ROOT_PASSWORD=" ++ password, "MYSQL_DATABASE=" ++ db,
             "MYSQL_USER=" ++ user, "MYSQL_PASSWORD=" ++ password])
      (some (toString port ++ ":3306"))
  | .redis name port image =>
    run_container fs O name image none (some (toString port ++ ":6379"))
  | .mongo name user password db port image =>
    run_container fs O name image
      (some ["MONGO_INITDB_ROOT_USERNAME=" ++ user,
             "MONGO_INITDB_ROOT_PASSWORD=" ++ password,
             "MONGO_INITDB_DATABASE=" ++ db])
      (some (toString port ++ ":27017"))
  | .custom name image port env =>
    run_container fs O name image env
      (match port with
       | some p => if p = 0 then none else some (toString p ++ ":" ++ toString p)
       | none => none)

/-- The `run_container` arguments each launch subcommand passes (`none` for
`stop`, which launches nothing).  Spec-side companion of `execMain` used to
quantify over "every launch invocation (any kind)". -/
def launchPlan : Command → Option (String × String × Option (List String) × Option String)
  | .stop _ => none
  | .postgres name user password db port image =>
    some (name, image,
      some ["POSTGRES_USER=" ++ user, "POSTGRES_PASSWORD=" ++ password,
            "POSTGRES_DB=" ++ db],
      some (toString port ++ ":5432"))
  | .mysql name user password db port image =>
    some (name, image,
      some ["MYSQL_ROOT_PASSWORD=" ++ password, "MYSQL_DATABASE=" ++ db,
            "MYSQL_USER=" ++ user, "MYSQL_PASSWORD=" ++ password],
      some (toString port ++ ":3306"))
  | .redis name port image =>
    some (name, image, none, some (toString port ++ ":6379"))
  | .mongo name user password db port image =>
    some (name, image,
      some ["MONGO_INITDB_ROOT_USERNAME=" ++ user,
            "MONGO_INITDB_ROOT_PASSWORD=" ++ password,
            "MONGO_INITDB_DATABASE=" ++ db],
      some (toString port ++ ":27017"))
  | .custom name image port env =>
    some (name, image, env,
      match port with
      | some p => if p = 0 then none else some (toString p ++ ":" ++ toString p)
      | none => none)

/-! ### Statement-side helper definitions -/

/-- The decimal digit characters of `n`, most significant first: the string
form of a natural number. -/
def natDigs (n : Nat) : List Char :=
  if _h : n < 10 then [Nat.digitChar n]
  else natDigs (n / 10) ++ [Nat.digitChar (n % 10)]
decreasing_by exact Nat.div_lt_self (by omega) (by omega)

/-- The value of a decimal digit string read left to right, starting from `acc`. -/
def foldVal (cs : List Char) (acc : Nat) : Nat :=
  cs.foldl (fun a c => a * 10 + charVal c) acc

/-- `pat` occurs (contiguously) inside `hay`. -/
def containsSub (hay pat : List Char) : Bool :=
  hay.tails.any (fun t => pat.isPrefixOf t)

/-- `pat` is a substring of `s`. -/
def strContains (s pat : String) : Bool := containsSub s.data pat.data

/-! ### Concrete fixtures used by the witnesses -/

/-- A filesystem where the runtime sits at the first candidate path. -/
def wfs : String → Bool := fun p => p == "/usr/bin/docker"

def wbin : String := "/usr/bin/docker"

/-- Every command succeeds with empty output. -/
def wOracle0 : Oracle := fun _ => ⟨0, "", ""⟩

/-- The listing reports containers `mydb` and `other`; everything succeeds. -/
def wOracleEx : Oracle := fun c =>
  if c = wbin :: psArgs then ⟨0, "mydb\nother", ""⟩ else ⟨0, "", ""⟩

/-- Every command fails with return code 1 and stderr `boom`. -/
def wOracleFail : Oracle := fun _ => ⟨1, "", "boom"⟩

/-- Every command succeeds and prints `HELLO-FROM-DOCKER` on its stdout. -/
def wOracleChat : Oracle := fun _ => ⟨0, "HELLO-FROM-DOCKER", "ERR-TEXT"⟩

/-- A filesystem with no runtime anywhere. -/
def wfsNone : String → Bool := fun _ => false

/-- A concrete postgres launch: the §8 scenario of the spec. -/
def wCmdPG : Command :=
  .postgres ("mydb") ("u") ("pw") ("d") 5432 ("postgres:16")

/-! ### Unfolding lemmas for a filesystem on which the runtime is found -/

@[simp] theorem Eff.app_def (a b : Eff) :
    a ++ b = Eff.mk (a.trace ++ b.trace) (a.outs ++ b.outs) (a.errs ++ b.errs) := rfl

@[simp] theorem mbind_done {α β : Type} (e : Eff) (a : α) (f : α → Eff × Outcome β) :
    mbind (e, .done a) f = (e ++ (f a).1, (f a).2) := rfl

@[simp] theorem mbind_exited {α β : Type} (e : Eff) (n : Nat) (f : α → Eff × Outcome β) :
    mbind (e, .exited n) f = (e, .exited n) := rfl

theorem run_docker_command_eq (fs : String → Bool) (O : Oracle) (bin : String)
    (hfs : DOCKER_PATHS.find? fs = some bin) (args : List String) :
    run_docker_command fs O args =
      (⟨[bin :: args], [], []⟩, .done (O (bin :: args))) := by
  simp [run_docker_command, find_docker, hfs, Eff.empty]

theorem container_exists_eq (fs : String → Bool) (O : Oracle) (bin : String)
    (hfs : DOCKER_PATHS.find? fs = some bin) (name : String) :
    container_exists fs O name =
      (⟨[bin :: psArgs], [], []⟩,
       .done ((pySplitlines (O (bin :: psArgs)).stdout).contains name)) := by
  simp [container_exists, run_docker_command_eq fs O bin hfs, Eff.empty]

theorem stop_and_remove_eq (fs : String → Bool) (O : Oracle) (bin : String)
    (hfs : DOCKER_PATHS.find? fs = some bin) (name : String) :
    stop_and_remove_container fs O name =
      (⟨[bin :: ["stop", name], bin :: ["rm", name]],
        [msgStopping name,
         if (O (bin :: ["rm", name])).returncode = 0 then msgRemoved name
         else msgNotRemoved name],
        []⟩, .done ()) := by
  by_cases hrm : (O (bin :: ["rm", name])).returncode = 0 <;>
    simp [stop_and_remove_container, printOut, hrm,
      run_docker_command_eq fs O bin hfs]

theorem run_container_eq (fs : String → Bool) (O : Oracle) (bin : String)
    (hfs : DOCKER_PATHS.find? fs = some bin) (name image : String)
    (ev : Option (List String)) (pm : Option String) :
    run_container fs O name image ev pm =
      (⟨(bin :: psArgs) ::
          ((if (pySplitlines (O (bin :: psArgs)).stdout).contains name
            then [bin :: ["stop", name], bin :: ["rm", name]] else []) ++
           [bin :: buildRunCmd name image ev pm]),
        (if (pySplitlines (O (bin :: psArgs)).stdout).contains name
         then [msgReplacing name, msgStopping name,
               if (O (bin :: ["rm", name])).returncode = 0 then msgRemoved name
               else msgNotRemoved name]
         else []) ++
          (msgStarting name image ::
           (if (O (bin :: buildRunCmd name image ev pm)).returncode = 0
            then [msgRunning name] else [])),
        if (O (bin :: buildRunCmd name image ev pm)).returncode = 0 then []
        else [msgFailed (O (bin :: buildRunCmd name image ev pm)).stderr]⟩,
       if (O (bin :: buildRunCmd name image ev pm)).returncode = 0
       then .done () else .exited 1) := by
  by_cases hex : name ∈ pySplitlines (O (bin :: psArgs)).stdout <;>
  by_cases hrun : (O (bin :: buildRunCmd name image ev pm)).returncode = 0 <;>
    simp [run_container, container_exists_eq fs O bin hfs,
      stop_and_remove_eq fs O bin hfs, run_docker_command_eq fs O bin hfs,
      printOut, printErr, exitWith, Eff.empty, hex, hrun]

theorem execMain_launch (fs : String → Bool) (O : Oracle) (cmd : Command)
    (n i : String) (ev : Option (List String)) (pm : Option String)
    (h : launchPlan cmd = some (n, i, ev, pm)) :
    execMain fs O cmd = run_container fs O n i ev pm := by
  cases cmd with
  | stop name => simp [launchPlan] at h
  | postgres name user password db port image =>
    simp only [launchPlan, Option.some.injEq, Prod.mk.injEq] at h
    obtain ⟨rfl, rfl, rfl, rfl⟩ := h
    rfl
  | mysql name user password db port image =>
    simp only [launchPlan, Option.some.injEq, Prod.mk.injEq] at h
    obtain ⟨rfl, rfl, rfl, rfl⟩ := h
    rfl
  | redis name port image =>
    simp only [launchPlan, Option.some.injEq, Prod.mk.injEq] at h
    obtain ⟨rfl, rfl, rfl, rfl⟩ := h
    rfl
  | mongo name user password db port image =>
    simp only [launchPlan, Option.some.injEq, Prod.mk.injEq] at h
    obtain ⟨rfl, rfl, rfl, rfl⟩ := h
    rfl
  | custom name image port env =>
    simp only [launchPlan, Option.some.injEq, Prod.mk.injEq] at h
    obtain ⟨rfl, rfl, rfl, rfl⟩ := h
    rfl

/-! ### Generic helper lemmas -/

theorem str_app_ne_empty (a b : String) (h : b ≠ "") : a ++ b ≠ "" := by
  intro hc
  have hd : a.data ++ b.data = ([] : List Char) := congrArg String.data hc
  exact h (String.ext (List.append_eq_nil.mp hd).2)

theorem find?_first {α : Type} (p : α → Bool) :
    ∀ (l1 : List α) (l2 : List α) (a : α), (∀ q ∈ l1, p q = false) → p a = true →
      (l1 ++ a :: l2).find? p = some a := by
  intro l1
  induction l1 with
  | nil => intro l2 a _ ha; simpa using List.find?_cons_of_pos l2 ha
  | cons x t ih =>
    intro l2 a h ha
    have hx : ¬ p x = true := by simp [h x (by simp)]
    rw [List.cons_append, List.find?_cons_of_neg _ hx]
    exact ih l2 a (fun q hq => h q (by simp [hq])) ha

/-- The full effect of any launch dispatched by `main`: the listing command,
the conditional stop/remove pair, and the run command. -/
theorem execMain_trace_eq (fs : String → Bool) (O : Oracle) (bin : String)
    (hfs : DOCKER_PATHS.find? fs = some bin) (cmd : Command)
    (n i : String) (ev : Option (List String)) (pm : Option String)
    (hcmd : launchPlan cmd = some (n, i, ev, pm)) :
    (execMain fs O cmd).1.trace =
      (bin :: psArgs) ::
        ((if n ∈ pySplitlines (O (bin :: psArgs)).stdout
          then [bin :: ["stop", n], bin :: ["rm", n]] else []) ++
         [bin :: buildRunCmd n i ev pm]) := by
  rw [execMain_launch fs O cmd n i ev pm hcmd, run_container_eq fs O bin hfs]
  by_cases hex : n ∈ pySplitlines (O (bin :: psArgs)).stdout <;> simp [hex]

theorem execMain_run_cmd (fs : String → Bool) (O : Oracle) (bin : String)
    (hfs : DOCKER_PATHS.find? fs = some bin) (cmd : Command)
    (n i : String) (ev : Option (List String)) (pm : Option String)
    (hcmd : launchPlan cmd = some (n, i, ev, pm)) :
    (execMain fs O cmd).1.trace.getLast? = some (bin :: buildRunCmd n i ev pm) := by
  rw [execMain_trace_eq fs O bin hfs cmd n i ev pm hcmd, ← List.cons_append,
    List.getLast?_concat]

/-! ### The claims -/

/-- C1: for every launch invocation (any subcommand with a launch plan, i.e.
any kind) on a filesystem where the runtime is found, when the container name
exists according to the existence check the trace is exactly the listing
command, then one stop, then one remove, then one run command for that name,
in that order; when the name does not exist, no stop or remove command is
issued before the run command. -/
theorem claim_C1 (fs : String → Bool) (O : Oracle) (bin : String)
    (hfs : DOCKER_PATHS.find? fs = some bin) (cmd : Command)
    (n i : String) (ev : Option (List String)) (pm : Option String)
    (hcmd : launchPlan cmd = some (n, i, ev, pm)) :
    (execMain fs O cmd).1.trace =
      (bin :: psArgs) ::
        ((if n ∈ pySplitlines (O (bin :: psArgs)).stdout
          then [bin :: ["stop", n], bin :: ["rm", n]] else []) ++
         [bin :: buildRunCmd n i ev pm]) :=
  execMain_trace_eq fs O bin hfs cmd n i ev pm hcmd

theorem claim_C1_witness :
    DOCKER_PATHS.find? wfs = some ("/usr/bin/docker") ∧
    launchPlan wCmdPG =
      some (("mydb"), ("postgres:16"),
        some ["POSTGRES_USER=u", "POSTGRES_PASSWORD=pw", "POSTGRES_DB=d"],
        some ("5432:5432")) ∧
    (execMain wfs wOracleEx wCmdPG).1.trace =
      [["/usr/bin/docker", "ps", "-a", "--format", "\x7b\x7b.Names\x7d\x7d"],
       ["/usr/bin/docker", "stop", "mydb"],
       ["/usr/bin/docker", "rm", "mydb"],
       ["/usr/bin/docker", "run", "--name", "mydb",
        "-e", "POSTGRES_USER=u", "-e", "POSTGRES_PASSWORD=pw",
        "-e", "POSTGRES_DB=d", "-p", "5432:5432", "-d", "postgres:16"]] := by
  refine ⟨by decide, by decide, ?_⟩
  have h := claim_C1 wfs wOracleEx ("/usr/bin/docker") (by decide) wCmdPG
    ("mydb") ("postgres:16")
    (some ["POSTGRES_USER=u", "POSTGRES_PASSWORD=pw", "POSTGRES_DB=d"])
    (some (toString 5432 ++ ":5432")) (by decide)
  exact h.trans (by decide)

/-- C2: for every invocation of a preset subcommand the run command carries
exactly the §4.2 environment variables in the table order — postgres:
POSTGRES_USER, POSTGRES_PASSWORD, POSTGRES_DB; mysql: MYSQL_ROOT_PASSWORD,
MYSQL_DATABASE, MYSQL_USER, MYSQL_PASSWORD with root and user password both
the single supplied password; mongo: MONGO_INITDB_ROOT_USERNAME,
MONGO_INITDB_ROOT_PASSWORD, MONGO_INITDB_DATABASE; redis: no `-e` flag at all. -/
theorem claim_C2 (fs : String → Bool) (O : Oracle) (bin : String)
    (hfs : DOCKER_PATHS.find? fs = some bin)
    (name user password db : String) (port : Nat) (image : String) :
    ((execMain fs O (.postgres name user password db port image)).1.trace.getLast? =
      some (bin :: ["run", "--name", name,
        "-e", "POSTGRES_USER=" ++ user, "-e", "POSTGRES_PASSWORD=" ++ password,
        "-e", "POSTGRES_DB=" ++ db,
        "-p", toString port ++ ":5432", "-d", image])) ∧
    ((execMain fs O (.mysql name user password db port image)).1.trace.getLast? =
      some (bin :: ["run", "--name", name,
        "-e", "MYSQL_ROOT_PASSWORD=" ++ password, "-e", "MYSQL_DATABASE=" ++ db,
        "-e", "MYSQL_USER=" ++ user, "-e", "MYSQL_PASSWORD=" ++ password,
        "-p", toString port ++ ":3306", "-d", image])) ∧
    ((execMain fs O (.mongo name user password db port image)).1.trace.getLast? =
      some (bin :: ["run", "--name", name,
        "-e", "MONGO_INITDB_ROOT_USERNAME=" ++ user,
        "-e", "MONGO_INITDB_ROOT_PASSWORD=" ++ password,
        "-e", "MONGO_INITDB_DATABASE=" ++ db,
        "-p", toString port ++ ":27017", "-d", image])) ∧
    ((execMain fs O (.redis name port image)).1.trace.getLast? =
      some (bin :: ["run", "--name", name,
        "-p", toString port ++ ":6379", "-d", image])) := by
  refine ⟨?_, ?_, ?_, ?_⟩
  · have h := execMain_run_cmd fs O bin hfs
      (.postgres name user password db port image) name image
      (some ["POSTGRES_USER=" ++ user, "POSTGRES_PASSWORD=" ++ password,
             "POSTGRES_DB=" ++ db])
      (some (toString port ++ ":5432")) rfl
    rw [h]
    simp [buildRunCmd, str_app_ne_empty (toString port) (":5432") (by decide)]
  · have h := execMain_run_cmd fs O bin hfs
      (.mysql name user password db port image) name image
      (some ["MYSQL_ROOT_PASSWORD=" ++ password, "MYSQL_DATABASE=" ++ db,
             "MYSQL_USER=" ++ user, "MYSQL_PASSWORD=" ++ password])
      (some (toString port ++ ":3306")) rfl
    rw [h]
    simp [buildRunCmd, str_app_ne_empty (toString port) (":3306") (by decide)]
  · have h := execMain_run_cmd fs O bin hfs
      (.mongo name user password db port image) name image
      (some ["MONGO_INITDB_ROOT_USERNAME=" ++ user,
             "MONGO_INITDB_ROOT_PASSWORD=" ++ password,
             "MONGO_INITDB_DATABASE=" ++ db])
      (some (toString port ++ ":27017")) rfl
    rw [h]
    simp [buildRunCmd, str_app_ne_empty (toString port) (":27017") (by decide)]
  · have h := execMain_run_cmd fs O bin hfs
      (.redis name port image) name image none
      (some (toString port ++ ":6379")) rfl
    rw [h]
    simp [buildRunCmd, str_app_ne_empty (toString port) (":6379") (by decide)]

theorem claim_C2_witness :
    DOCKER_PATHS.find? wfs = some ("/usr/bin/docker") ∧
    (execMain wfs wOracle0
        (.mysql ("m") ("u") ("pw") ("d") 3306 ("mysql:8"))).1.trace.getLast? =
      some ["/usr/bin/docker", "run", "--name", "m",
        "-e", "MYSQL_ROOT_PASSWORD=pw", "-e", "MYSQL_DATABASE=d",
        "-e", "MYSQL_USER=u", "-e", "MYSQL_PASSWORD=pw",
        "-p", "3306:3306", "-d", "mysql:8"] := by
  refine ⟨by decide, ?_⟩
  have h := (claim_C2 wfs wOracle0 ("/usr/bin/docker") (by decide)
    ("m") ("u") ("pw") ("d") 3306 ("mysql:8")).2.1
  exact h.trans (by decide)

/-- C4: the existence check returns true exactly when the queried name equals
one whole line of the listing of all containers; a name matching no whole line
(for instance a proper substring or prefix of a listed name) is reported as
not existing. -/
theorem claim_C4 (fs : String → Bool) (O : Oracle) (bin : String)
    (hfs : DOCKER_PATHS.find? fs = some bin) (name : String) :
    ((container_exists fs O name).2 = .done true ↔
      name ∈ pySplitlines (O (bin :: psArgs)).stdout) ∧
    ((∀ l ∈ pySplitlines (O (bin :: psArgs)).stdout, l ≠ name) →
      (container_exists fs O name).2 = .done false) := by
  rw [container_exists_eq fs O bin hfs]
  constructor
  · simp
  · intro h
    have hne : name ∉ pySplitlines (O (bin :: psArgs)).stdout :=
      fun hm => h name hm rfl
    simp [hne]

theorem claim_C4_witness :
    DOCKER_PATHS.find? wfs = some ("/usr/bin/docker") ∧
    (∀ l ∈ pySplitlines ((wOracleEx ("/usr/bin/docker" :: psArgs)).stdout),
      l ≠ "myd") ∧
    (container_exists wfs wOracleEx ("myd")).2 = .done false := by
  refine ⟨by decide, by decide, ?_⟩
  exact (claim_C4 wfs wOracleEx ("/usr/bin/docker") (by decide) ("myd")).2
    (by decide)

/-! ### Decimal string form of a natural number -/

theorem digitChar_isDigit (d : Nat) (h : d < 10) : (Nat.digitChar d).isDigit = true := by
  interval_cases d <;> decide

theorem charVal_digitChar (d : Nat) (h : d < 10) : charVal (Nat.digitChar d) = d := by
  interval_cases d <;> decide

theorem natDigs_ne_nil (n : Nat) : natDigs n ≠ [] := by
  rw [natDigs]
  split <;> simp

theorem natDigs_digits (n : Nat) : ∀ c ∈ natDigs n, c.isDigit = true := by
  induction n using Nat.strong_induction_on with
  | _ n ih =>
    rw [natDigs]
    split
    · intro c hc
      rw [List.mem_singleton] at hc
      subst hc
      exact digitChar_isDigit n (by omega)
    · intro c hc
      rcases List.mem_append.mp hc with hc | hc
      · exact ih (n / 10) (Nat.div_lt_self (by omega) (by omega)) c hc
      · rw [List.mem_singleton] at hc
        subst hc
        exact digitChar_isDigit (n % 10) (Nat.mod_lt _ (by omega))

theorem toDigitsCore_eq_natDigs :
    ∀ (f n : Nat) (ds : List Char), n < f →
      Nat.toDigitsCore 10 f n ds = natDigs n ++ ds := by
  intro f
  induction f with
  | zero => intro n ds h; omega
  | succ f ih =>
    intro n ds h
    by_cases h0 : n / 10 = 0
    · have hn : n < 10 := by
        rw [Nat.div_eq_zero_iff (by omega)] at h0
        exact h0
      simp only [Nat.toDigitsCore, h0, if_true]
      rw [natDigs, dif_pos hn, Nat.mod_eq_of_lt hn]
      rfl
    · have hn : ¬ n < 10 := by
        intro hlt
        exact h0 (Nat.div_eq_of_lt hlt)
      have hdiv : n / 10 < f := by
        have h1 : n / 10 < n := Nat.div_lt_self (by omega) (by omega)
        omega
      simp only [Nat.toDigitsCore, h0, if_false]
      rw [ih (n / 10) _ hdiv]
      conv_rhs => rw [natDigs, dif_neg hn]
      rw [List.append_assoc]
      rfl

theorem natRepr_data (n : Nat) : (Nat.repr n).data = natDigs n := by
  have h : (Nat.repr n).data = Nat.toDigitsCore 10 (n + 1) n [] := rfl
  rw [h, toDigitsCore_eq_natDigs (n + 1) n [] (by omega), List.append_nil]

theorem toString_nat_data (n : Nat) : (toString n).data = natDigs n :=
  natRepr_data n

theorem toString_nat_ne_empty (n : Nat) : toString n ≠ "" := by
  intro h
  have hd : (toString n).data = ([] : List Char) := congrArg String.data h
  rw [toString_nat_data] at hd
  exact natDigs_ne_nil n hd

/-- C5: for the custom subcommand, no supplied port means the run command has
no port-mapping flag at all; a supplied (validated, hence positive) port `p`
yields exactly the mapping `p:p`. -/
theorem claim_C5 (fs : String → Bool) (O : Oracle) (bin : String)
    (hfs : DOCKER_PATHS.find? fs = some bin) (name image : String)
    (env : Option (List String)) (p : Nat) (hp : 1 ≤ p) :
    ((execMain fs O (.custom name image none env)).1.trace.getLast? =
      some (bin :: (["run", "--name", name] ++
        (env.getD []).flatMap (fun v => ["-e", v]) ++ ["-d", image]))) ∧
    ((execMain fs O (.custom name image (some p) env)).1.trace.getLast? =
      some (bin :: (["run", "--name", name] ++
        (env.getD []).flatMap (fun v => ["-e", v]) ++
        ["-p", toString p ++ ":" ++ toString p] ++ ["-d", image]))) := by
  constructor
  · have h := execMain_run_cmd fs O bin hfs (.custom name image none env)
      name image env none rfl
    rw [h]
    cases env <;> simp [buildRunCmd]
  · have hp0 : ¬ p = 0 := by omega
    have h := execMain_run_cmd fs O bin hfs (.custom name image (some p) env)
      name image env (some (toString p ++ ":" ++ toString p))
      (by simp [launchPlan, hp0])
    rw [h]
    have hne : toString p ++ ":" ++ toString p ≠ "" :=
      str_app_ne_empty _ _ (toString_nat_ne_empty p)
    cases env <;> simp [buildRunCmd, hne]

theorem claim_C5_witness :
    DOCKER_PATHS.find? wfs = some ("/usr/bin/docker") ∧ 1 ≤ 8080 ∧
    (execMain wfs wOracle0
        (.custom ("c") ("nginx:1") none (some ["A=1", "B=2"]))).1.trace.getLast? =
      some ["/usr/bin/docker", "run", "--name", "c",
        "-e", "A=1", "-e", "B=2", "-d", "nginx:1"] ∧
    (execMain wfs wOracle0
        (.custom ("c") ("nginx:1") (some 8080) (some ["A=1", "B=2"]))).1.trace.getLast? =
      some ["/usr/bin/docker", "run", "--name", "c",
        "-e", "A=1", "-e", "B=2", "-p", "8080:8080", "-d", "nginx:1"] := by
  have h := claim_C5 wfs wOracle0 ("/usr/bin/docker") (by decide)
    ("c") ("nginx:1") (some ["A=1", "B=2"]) 8080 (by decide)
  exact ⟨by decide, by decide, h.1.trans (by decide), h.2.trans (by decide)⟩

/-! ### Correctness of the `int()` model on decimal digit strings -/

theorem foldVal_nil (acc : Nat) : foldVal [] acc = acc := rfl

theorem foldVal_cons (c : Char) (cs : List Char) (acc : Nat) :
    foldVal (c :: cs) acc = foldVal cs (acc * 10 + charVal c) := rfl

theorem foldVal_append (xs ys : List Char) (acc : Nat) :
    foldVal (xs ++ ys) acc = foldVal ys (foldVal xs acc) := by
  simp [foldVal, List.foldl_append]

theorem digit_not_underscore (c : Char) (h : c.isDigit = true) : ¬ c = '_' := by
  intro hc
  subst hc
  exact absurd h (by decide)

theorem parseDigits_cons (c : Char) (rest : List Char) (acc : Nat) :
    parseDigits (c :: rest) acc =
      if c.isDigit then parseDigits rest (acc * 10 + charVal c)
      else if c = '_' then
        match rest with
        | [] => none
        | c2 :: rest2 =>
          if c2.isDigit then parseDigits rest2 (acc * 10 + charVal c2) else none
      else none := by
  rw [parseDigits.eq_def]

theorem parseDigits_all (cs : List Char) :
    ∀ acc, (∀ c ∈ cs, c.isDigit = true) → parseDigits cs acc = some (foldVal cs acc) := by
  induction cs with
  | nil => intro acc _; rfl
  | cons c rest ih =>
    intro acc h
    have hc : c.isDigit = true := h c (by simp)
    rw [parseDigits_cons, if_pos hc, foldVal_cons]
    exact ih _ (fun x hx => h x (by simp [hx]))

theorem foldVal_natDigs (n : Nat) :
    ∀ acc, foldVal (natDigs n) acc = acc * 10 ^ (natDigs n).length + n := by
  induction n using Nat.strong_induction_on with
  | _ n ih =>
    intro acc
    by_cases hn : n < 10
    · rw [natDigs, dif_pos hn]
      simp [foldVal_cons, foldVal_nil, charVal_digitChar n hn]
    · rw [natDigs, dif_neg hn]
      have hlt : n / 10 < n := Nat.div_lt_self (by omega) (by omega)
      rw [foldVal_append, ih (n / 10) hlt acc, foldVal_cons, foldVal_nil,
        charVal_digitChar (n % 10) (Nat.mod_lt _ (by omega))]
      rw [List.length_append, List.length_singleton, pow_succ, ← mul_assoc]
      have hdm : 10 * (n / 10) + n % 10 = n := Nat.div_add_mod n 10
      generalize acc * 10 ^ (natDigs (n / 10)).length = K
      omega

theorem digit_not_pyspace (c : Char) (h : c.isDigit = true) : isPySpace c = false := by
  cases hsp : isPySpace c
  · rfl
  · exfalso
    simp only [isPySpace, Bool.or_eq_true, decide_eq_true_eq] at hsp
    rcases hsp with ((((rfl | rfl) | rfl) | rfl) | rfl) | rfl <;>
      exact absurd h (by decide)

theorem dropWhile_all_false {α : Type} (p : α → Bool) (cs : List α)
    (h : ∀ c ∈ cs, p c = false) : cs.dropWhile p = cs := by
  cases cs with
  | nil => rfl
  | cons c t => simp [List.dropWhile_cons, h c (by simp)]

theorem pyStrip_digits (cs : List Char) (h : ∀ c ∈ cs, c.isDigit = true) :
    pyStrip cs = cs := by
  have hsp : ∀ c ∈ cs, isPySpace c = false :=
    fun c hc => digit_not_pyspace c (h c hc)
  unfold pyStrip
  rw [dropWhile_all_false isPySpace cs hsp,
    dropWhile_all_false isPySpace cs.reverse
      (fun c hc => hsp c (List.mem_reverse.mp hc)),
    List.reverse_reverse]

theorem natPart_natDigs (n : Nat) : natPart (natDigs n) = some n := by
  have hd := natDigs_digits n
  obtain ⟨c, rest, hcons⟩ := List.exists_cons_of_ne_nil (natDigs_ne_nil n)
  have hc : c.isDigit = true := hd c (by rw [hcons]; simp)
  have hval : foldVal (natDigs n) 0 = n := by
    rw [foldVal_natDigs n 0]; omega
  rw [hcons, natPart, if_pos hc]
  have hrest : ∀ x ∈ rest, x.isDigit = true :=
    fun x hx => hd x (by rw [hcons]; simp [hx])
  rw [parseDigits_all rest (charVal c) hrest]
  rw [hcons, foldVal_cons] at hval
  simp at hval ⊢
  omega

theorem digit_not_sign (c : Char) (h : c.isDigit = true) :
    ¬ c = '+' ∧ ¬ c = '-' := by
  constructor <;> intro hc <;> subst hc <;> exact absurd h (by decide)

theorem pyInt_toString (n : Nat) : pyInt (toString n) = some ((n : Int)) := by
  unfold pyInt
  rw [toString_nat_data, pyStrip_digits (natDigs n) (natDigs_digits n)]
  obtain ⟨c, rest, hcons⟩ := List.exists_cons_of_ne_nil (natDigs_ne_nil n)
  have hc : c.isDigit = true := natDigs_digits n c (by rw [hcons]; simp)
  obtain ⟨hplus, hminus⟩ := digit_not_sign c hc
  rw [hcons, pyIntCore, if_neg hplus, if_neg hminus, ← hcons, natPart_natDigs]
  rfl

/-- C6: port validation accepts the decimal string form of every `p` with
`1 ≤ p ≤ 65535` and returns `p`; it rejects `"0"` and `"65536"`, every other
string parsing to an out-of-range integer, and every string that does not
parse as an integer, with the usage-error message. -/
theorem claim_C6 (p : Nat) (hp1 : 1 ≤ p) (hp2 : p ≤ 65535) :
    validate_port (toString p) = .ok ((p : Int)) ∧
    validate_port ("0") = .error (invalidPortMsg ("0")) ∧
    validate_port ("65536") = .error (invalidPortMsg ("65536")) ∧
    (∀ (s : String) (q : Int), pyInt s = some q → (q < 1 ∨ 65535 < q) →
      validate_port s = .error (invalidPortMsg s)) ∧
    (∀ s : String, pyInt s = none →
      validate_port s = .error (invalidPortMsg s)) := by
  refine ⟨?_, by decide, by decide, ?_, ?_⟩
  · unfold validate_port
    rw [pyInt_toString]
    have hr : 1 ≤ (p : Int) ∧ (p : Int) ≤ 65535 := by
      constructor <;> [exact_mod_cast hp1; exact_mod_cast hp2]
    simp [hr]
  · intro s q hq hrange
    unfold validate_port
    rw [hq]
    have hr : ¬ (1 ≤ q ∧ q ≤ 65535) := by omega
    simp [hr]
  · intro s hs
    unfold validate_port
    rw [hs]

theorem claim_C6_witness :
    1 ≤ 5432 ∧ 5432 ≤ 65535 ∧
    validate_port (toString 5432) = .ok ((5432 : Int)) ∧
    validate_port ("0") = .error (invalidPortMsg ("0")) ∧
    validate_port ("65536") = .error (invalidPortMsg ("65536")) ∧
    pyInt ("70000") = some ((70000 : Int)) ∧
    validate_port ("70000") = .error (invalidPortMsg ("70000")) ∧
    pyInt ("abc") = none ∧
    validate_port ("abc") = .error (invalidPortMsg ("abc")) := by
  have h := claim_C6 5432 (by decide) (by decide)
  refine ⟨by decide, by decide, h.1, h.2.1, h.2.2.1, by decide, ?_, by decide, ?_⟩
  · exact h.2.2.2.1 ("70000") 70000 (by decide) (by decide)
  · exact h.2.2.2.2 ("abc") (by decide)

/-- C7: for every launch, the run command's exit status determines the
outcome — zero means the process completes normally (exit code 0) with no
error output, nonzero is fatal: the process terminates with exit code 1 and
the runtime's error text is reported on the caller's stderr. -/
theorem claim_C7 (fs : String → Bool) (O : Oracle) (bin : String)
    (hfs : DOCKER_PATHS.find? fs = some bin) (cmd : Command)
    (n i : String) (ev : Option (List String)) (pm : Option String)
    (hcmd : launchPlan cmd = some (n, i, ev, pm)) :
    ((O (bin :: buildRunCmd n i ev pm)).returncode = 0 →
      (execMain fs O cmd).2 = .done () ∧ (execMain fs O cmd).1.errs = []) ∧
    ((O (bin :: buildRunCmd n i ev pm)).returncode ≠ 0 →
      (execMain fs O cmd).2 = .exited 1 ∧
      (execMain fs O cmd).1.errs =
        [msgFailed (O (bin :: buildRunCmd n i ev pm)).stderr]) := by
  rw [execMain_launch fs O cmd n i ev pm hcmd, run_container_eq fs O bin hfs]
  constructor <;> intro h <;> simp [h]

theorem claim_C7_witness :
    DOCKER_PATHS.find? wfs = some ("/usr/bin/docker") ∧
    launchPlan (.redis ("r") 6379 ("redis:7")) =
      some (("r"), ("redis:7"), none, some ("6379:6379")) ∧
    (execMain wfs wOracle0 (.redis ("r") 6379 ("redis:7"))).2 = .done () ∧
    (execMain wfs wOracle0 (.redis ("r") 6379 ("redis:7"))).1.errs = [] ∧
    (execMain wfs wOracleFail (.redis ("r") 6379 ("redis:7"))).2 = .exited 1 ∧
    (execMain wfs wOracleFail (.redis ("r") 6379 ("redis:7"))).1.errs =
      [msgFailed ("boom")] := by
  have h0 := (claim_C7 wfs wOracle0 ("/usr/bin/docker") (by decide)
    (.redis ("r") 6379 ("redis:7")) ("r") ("redis:7") none
    (some (toString 6379 ++ ":6379")) rfl).1 (by decide)
  have h1 := (claim_C7 wfs wOracleFail ("/usr/bin/docker") (by decide)
    (.redis ("r") 6379 ("redis:7")) ("r") ("redis:7") none
    (some (toString 6379 ++ ":6379")) rfl).2 (by decide)
  exact ⟨by decide, by decide, h0.1, h0.2, h1.1, h1.2.trans (by decide)⟩

/-- C8: runtime discovery probes the fixed candidate list in order and returns
the first existing path; if no candidate exists it fails fatally — the
runtime-not-found message on stderr and termination with exit status 1. -/
theorem claim_C8 (fs : String → Bool) :
    ((∀ p ∈ DOCKER_PATHS, fs p = false) →
      find_docker fs = (⟨[], [], [dockerNotFoundMsg]⟩, .exited 1)) ∧
    (∀ (l1 l2 : List String) (a : String), DOCKER_PATHS = l1 ++ a :: l2 →
      (∀ q ∈ l1, fs q = false) → fs a = true →
      find_docker fs = (Eff.empty, .done a)) := by
  constructor
  · intro h
    have hn : DOCKER_PATHS.find? (fun p => fs p) = none :=
      List.find?_eq_none.mpr (fun x hx => by simp [h x hx])
    simp [find_docker, hn]
  · intro l1 l2 a hsplit h1 ha
    have hf : DOCKER_PATHS.find? (fun q => fs q) = some a := by
      rw [hsplit]
      exact find?_first _ l1 l2 a h1 ha
    simp [find_docker, hf]

theorem claim_C8_witness :
    find_docker wfsNone = (⟨[], [], [dockerNotFoundMsg]⟩, .exited 1) ∧
    wfs ("/usr/bin/docker") = true ∧
    find_docker wfs = (Eff.empty, .done ("/usr/bin/docker")) := by
  refine ⟨(claim_C8 wfsNone).1 (by decide), by decide, ?_⟩
  exact (claim_C8 wfs).2 []
    ["/usr/local/bin/docker",
     "C:\\Program Files\\Docker\\Docker\\resources\\bin\\docker.exe"]
    ("/usr/bin/docker") (by decide) (by decide) (by decide)

/-- C9: the stop subcommand on a name for which no container exists (so the
remove command reports a nonzero status) completes without a fatal error:
the outcome is normal completion, stderr stays empty, and the failure shows
up only as the could-not-be-removed log line on stdout. -/
theorem claim_C9 (fs : String → Bool) (O : Oracle) (bin : String)
    (hfs : DOCKER_PATHS.find? fs = some bin) (name : String)
    (hrm : (O (bin :: ["rm", name])).returncode ≠ 0) :
    (execMain fs O (.stop name)).2 = .done () ∧
    (execMain fs O (.stop name)).1.errs = [] ∧
    (execMain fs O (.stop name)).1.outs =
      [msgStopping name, msgNotRemoved name] := by
  have h : execMain fs O (.stop name) = stop_and_remove_container fs O name := rfl
  rw [h, stop_and_remove_eq fs O bin hfs]
  simp [hrm]

theorem claim_C9_witness :
    DOCKER_PATHS.find? wfs = some ("/usr/bin/docker") ∧
    (wOracleFail (["/usr/bin/docker", "rm", "ghost"])).returncode ≠ 0 ∧
    ((execMain wfs wOracleFail (.stop ("ghost"))).2 = .done () ∧
     (execMain wfs wOracleFail (.stop ("ghost"))).1.errs = [] ∧
     (execMain wfs wOracleFail (.stop ("ghost"))).1.outs =
       [msgStopping ("ghost"), msgNotRemoved ("ghost")]) := by
  refine ⟨by decide, by decide, ?_⟩
  exact claim_C9 wfs wOracleFail ("/usr/bin/docker") (by decide) ("ghost")
    (by decide)

/-- C10: `stop_and_remove_container` always issues the remove right after the
stop — also when the stop command failed — and the reported outcome depends
solely on the remove command's return code: any two oracles agreeing on the
remove response produce identical output, whatever they answer for stop. -/
theorem claim_C10 (fs : String → Bool) (O : Oracle) (bin : String)
    (hfs : DOCKER_PATHS.find? fs = some bin) (name : String) :
    (stop_and_remove_container fs O name).1.trace =
      [bin :: ["stop", name], bin :: ["rm", name]] ∧
    (stop_and_remove_container fs O name).1.outs =
      [msgStopping name,
       if (O (bin :: ["rm", name])).returncode = 0 then msgRemoved name
       else msgNotRemoved name] ∧
    (stop_and_remove_container fs O name).2 = .done () ∧
    (∀ O2 : Oracle,
      (O2 (bin :: ["rm", name])).returncode = (O (bin :: ["rm", name])).returncode →
      (stop_and_remove_container fs O2 name).1.outs =
        (stop_and_remove_container fs O name).1.outs) := by
  refine ⟨?_, ?_, ?_, ?_⟩
  · rw [stop_and_remove_eq fs O bin hfs]
  · rw [stop_and_remove_eq fs O bin hfs]
  · rw [stop_and_remove_eq fs O bin hfs]
  · intro O2 h2
    rw [stop_and_remove_eq fs O bin hfs, stop_and_remove_eq fs O2 bin hfs, h2]

theorem claim_C10_witness :
    DOCKER_PATHS.find? wfs = some ("/usr/bin/docker") ∧
    (stop_and_remove_container wfs wOracle0 ("db")).1.trace =
      [["/usr/bin/docker", "stop", "db"], ["/usr/bin/docker", "rm", "db"]] ∧
    (stop_and_remove_container wfs wOracle0 ("db")).1.outs =
      [msgStopping ("db"), msgRemoved ("db")] ∧
    (stop_and_remove_container wfs wOracle0 ("db")).2 = .done () := by
  have h := claim_C10 wfs wOracle0 ("/usr/bin/docker") (by decide) ("db")
  exact ⟨by decide, h.1, h.2.1.trans (by decide), h.2.2.1⟩

/-- C3 (counterexample): with a runtime whose commands succeed and print
`HELLO-FROM-DOCKER` on their stdout, a stop invocation runs two commands yet
relays that text to neither the caller's stdout nor stderr — the underlying
command output is not passed through. -/
theorem claim_C3_counterexample :
    (execMain wfs wOracleChat (.stop ("db"))).1.trace =
      [["/usr/bin/docker", "stop", "db"], ["/usr/bin/docker", "rm", "db"]] ∧
    (wOracleChat (["/usr/bin/docker", "stop", "db"])).stdout =
      "HELLO-FROM-DOCKER" ∧
    ((execMain wfs wOracleChat (.stop ("db"))).1.outs.any
      (fun l => strContains l ("HELLO-FROM-DOCKER"))) = false ∧
    ((execMain wfs wOracleChat (.stop ("db"))).1.errs.any
      (fun l => strContains l ("HELLO-FROM-DOCKER"))) = false := by
  exact ⟨by decide, by decide, by decide, by decide⟩

/-- C3 (amended): the output of the underlying runtime commands is captured,
not passed through; the caller's stderr carries exactly the final run
command's stderr embedded in the fatal error message when that command fails
and nothing otherwise, the caller's stdout consists solely of the fixed
progress messages, and a stop invocation writes nothing to stderr at all. -/
theorem claim_C3 (fs : String → Bool) (O : Oracle) (bin : String)
    (hfs : DOCKER_PATHS.find? fs = some bin) (cmd : Command)
    (n i : String) (ev : Option (List String)) (pm : Option String)
    (hcmd : launchPlan cmd = some (n, i, ev, pm)) (name2 : String) :
    ((execMain fs O cmd).1.errs =
      if (O (bin :: buildRunCmd n i ev pm)).returncode = 0 then []
      else [msgFailed (O (bin :: buildRunCmd n i ev pm)).stderr]) ∧
    ((execMain fs O cmd).1.outs =
      (if n ∈ pySplitlines (O (bin :: psArgs)).stdout
       then [msgReplacing n, msgStopping n,
             if (O (bin :: ["rm", n])).returncode = 0 then msgRemoved n
             else msgNotRemoved n]
       else []) ++
        (msgStarting n i ::
         (if (O (bin :: buildRunCmd n i ev pm)).returncode = 0
          then [msgRunning n] else []))) ∧
    ((execMain fs O (.stop name2)).1.errs = []) := by
  refine ⟨?_, ?_, ?_⟩
  · rw [execMain_launch fs O cmd n i ev pm hcmd, run_container_eq fs O bin hfs]
  · rw [execMain_launch fs O cmd n i ev pm hcmd, run_container_eq fs O bin hfs]
    by_cases hex : n ∈ pySplitlines (O (bin :: psArgs)).stdout <;> simp [hex]
  · have h : execMain fs O (.stop name2) = stop_and_remove_container fs O name2 := rfl
    rw [h, stop_and_remove_eq fs O bin hfs]

theorem claim_C3_witness :
    DOCKER_PATHS.find? wfs = some ("/usr/bin/docker") ∧
    launchPlan (.mongo ("m") ("u") ("pw") ("d") 27017 ("mongo:7")) =
      some (("m"), ("mongo:7"),
        some ["MONGO_INITDB_ROOT_USERNAME=u", "MONGO_INITDB_ROOT_PASSWORD=pw",
              "MONGO_INITDB_DATABASE=d"],
        some ("27017:27017")) ∧
    (execMain wfs wOracleFail
        (.mongo ("m") ("u") ("pw") ("d") 27017 ("mongo:7"))).1.errs =
      [msgFailed ("boom")] ∧
    (execMain wfs wOracleFail (.stop ("x"))).1.errs = [] := by
  have h := claim_C3 wfs wOracleFail ("/usr/bin/docker") (by decide)
    (.mongo ("m") ("u") ("pw") ("d") 27017 ("mongo:7")) ("m") ("mongo:7")
    (some ["MONGO_INITDB_ROOT_USERNAME=u", "MONGO_INITDB_ROOT_PASSWORD=pw",
           "MONGO_INITDB_DATABASE=d"])
    (some (toString 27017 ++ ":27017")) rfl ("x")
  exact ⟨by decide, by decide, h.1.trans (by decide), h.2.2⟩
